import Mathlib

/-!
# Verification of one-dimensional table interpolation (include/openmc/interpolate.h)

Shallow embedding of the interpolation core. C++ `double` values are modelled
as exact rationals (`ℚ`); the transcendental functions `log` and `exp` are
abstract parameters `lg`, `ex` so the log-based kernels stay executable;
reads of a `std::vector<double>` are modelled by `nth`, which returns `0`
where the C++ read would be out of bounds; the implicit C++ conversion from
`double` to `int` is `truncQ` (truncation toward zero), and the implicit
conversion from `int` to `double` is the exact cast `ℤ → ℚ`.

The grid-search primitive `lower_bound_index` (openmc/search.h) and the
`Interpolation` enumeration are external collaborators whose source is not
part of the observed tree; they are modelled from the specification, as
marked in their doc comments. Everything else is translated line by line
from `include/openmc/interpolate.h`.
-/

namespace OpenMC

/-- Table read `v[i]` on a `std::vector<double>`, total: returns `0` where the
C++ access would be out of bounds (negative or past the end). -/
def nth (v : List ℚ) (i : ℤ) : ℚ :=
  match v with
  | [] => 0
  | a :: t => if i = 0 then a else if 0 < i then nth t (i - 1) else 0

/-- The implicit C++ conversion `double → int`: truncation toward zero. -/
def truncQ (q : ℚ) : ℤ :=
  if 0 ≤ q then ⌊q⌋ else ⌈q⌉

/-- Modelled from the spec: the `Interpolation` enumeration is declared in a
header outside the observed source tree. The six named laws are the spec's
closed enumeration (§3); `invalid v` stands for any other underlying value the
C++ enum type can carry (§4.4 step 5, §7). -/
inductive Interpolation where
  | lin_lin
  | lin_log
  | log_lin
  | log_log
  | quadratic
  | cubic
  | invalid (v : ℤ)
deriving DecidableEq

/-- `interpolate_lin_lin` from interpolate.h. -/
def interpolate_lin_lin (x0 x1 y0 y1 x : ℚ) : ℚ :=
  y0 + (x - x0) / (x1 - x0) * (y1 - y0)

/-- `interpolate_lin_log` from interpolate.h; `lg` abstracts `log`. -/
def interpolate_lin_log (lg : ℚ → ℚ) (x0 x1 y0 y1 x : ℚ) : ℚ :=
  y0 + lg (x / x0) / lg (x1 / x0) * (y1 - y0)

/-- `interpolate_log_lin` from interpolate.h; `lg`, `ex` abstract `log`, `exp`. -/
def interpolate_log_lin (lg ex : ℚ → ℚ) (x0 x1 y0 y1 x : ℚ) : ℚ :=
  y0 * ex ((x - x0) / (x1 - x0) * lg (y1 / y0))

/-- `interpolate_log_log` from interpolate.h; `lg`, `ex` abstract `log`, `exp`. -/
def interpolate_log_log (lg ex : ℚ → ℚ) (x0 x1 y0 y1 x : ℚ) : ℚ :=
  let f := lg (x / x0) / lg (x1 / x0)
  y0 * ex (f * lg (y1 / y0))

/-- `interpolate_lagrangian` from interpolate.h, signature
`(xs, ys, int idx, double x, int order)`. The outer loop builds one
coefficient per window position `i ∈ 0..order`; the inner loop of the source
iterates `j` over `0 ≤ j < order` (the bound is `order`, not `order + 1`),
skipping `j = i`, multiplying `(x - xs[idx+j])` into the numerator and
`(xs[idx+i] - xs[idx+j])` into the denominator. The result is the inner
product of the coefficients with `ys` starting at `idx`; the coefficient
vector is inlined here, each summand being coefficient `i` times `ys[idx+i]`. -/
def interpolate_lagrangian (xs ys : List ℚ) (idx : ℤ) (x : ℚ) (order : ℕ) : ℚ :=
  ((List.range (order + 1)).map fun (i : ℕ) =>
    ((((List.range order).map fun (j : ℕ) =>
      if j = i then 1 else x - nth xs (idx + (j : ℤ))).prod) /
     (((List.range order).map fun (j : ℕ) =>
      if j = i then 1 else nth xs (idx + (i : ℤ)) - nth xs (idx + (j : ℤ))).prod)) *
    nth ys (idx + (i : ℤ))).sum

/-- Modelled from the spec: `lower_bound_index` (openmc/search.h, not in the
observed source). §4.1: returns `idx` with `xs[idx] ≤ x` and, when possible,
`x < xs[idx+1]`, clamped to `[0, n-2]`; `0` when `x < xs[0]`, and `n-2` when
`x` is at or past the final grid point. For a strictly increasing `xs`, the
number of grid points `≤ x`, minus one (at zero truncated to zero), clamped
above by `n - 2`, realises exactly that contract. -/
def lower_bound_index (xs : List ℚ) (x : ℚ) : ℕ :=
  min (xs.length - 2) (xs.countP (fun v => decide (v ≤ x)) - 1)

/-- The index adjustment the `quadratic` branch of `interpolate` performs
before calling the Lagrangian evaluator: move back one point if `x` is in the
last interval of the x-grid (`idx == xs.size() - 2 && idx > 0`). -/
def shiftQuad (n : ℕ) (idx : ℤ) : ℤ :=
  if idx = (n : ℤ) - 2 ∧ 0 < idx then idx - 1 else idx

/-- The index adjustment the `cubic` branch of `interpolate` performs before
calling the Lagrangian evaluator: if `idx > 0`, move back one; if the result
equals `xs.size() - 3`, move back one more. -/
def shiftCubic (n : ℕ) (idx : ℤ) : ℤ :=
  let idx1 := if 0 < idx then idx - 1 else idx
  if idx1 = (n : ℤ) - 3 then idx1 - 1 else idx1

/-- `interpolate` from interpolate.h: locate the bracket with
`lower_bound_index`, then dispatch on the law. The `quadratic` and `cubic`
branches reproduce the source calls `interpolate_lagrangian(xs, ys, x, idx, 2)`
and `interpolate_lagrangian(xs, ys, x, idx, 3)` against the declared parameter
order `(idx, x)`: C++ implicitly converts the `double` query `x` to the `int`
parameter (truncation toward zero, `truncQ`) and the `int` index to the
`double` parameter (exact cast). The `fatal_error("Unsupported interpolation")`
default branch is modelled as `Except.error`. -/
def interpolate (lg ex : ℚ → ℚ) (xs ys : List ℚ) (x : ℚ)
    (law : Interpolation) : Except String ℚ :=
  let idx : ℤ := (lower_bound_index xs x : ℤ)
  match law with
  | .lin_lin => .ok (interpolate_lin_lin
      (nth xs idx) (nth xs (idx + 1)) (nth ys idx) (nth ys (idx + 1)) x)
  | .log_log => .ok (interpolate_log_log lg ex
      (nth xs idx) (nth xs (idx + 1)) (nth ys idx) (nth ys (idx + 1)) x)
  | .lin_log => .ok (interpolate_lin_log lg
      (nth xs idx) (nth xs (idx + 1)) (nth ys idx) (nth ys (idx + 1)) x)
  | .log_lin => .ok (interpolate_log_lin lg ex
      (nth xs idx) (nth xs (idx + 1)) (nth ys idx) (nth ys (idx + 1)) x)
  | .quadratic => .ok (interpolate_lagrangian xs ys
      (truncQ x) ((shiftQuad xs.length idx : ℤ) : ℚ) 2)
  | .cubic => .ok (interpolate_lagrangian xs ys
      (truncQ x) ((shiftCubic xs.length idx : ℤ) : ℚ) 3)
  | .invalid _ => .error "Unsupported interpolation"

/-- The Lagrange interpolation value as the spec states it (§4.3): for each
window position `i` in `0..order`, the basis coefficient is the product over
all `j ≠ i` in the full window `0..order` of
`(x - xs[idx+j]) / (xs[idx+i] - xs[idx+j])`, and the result is
`Σ_i c_i * ys[idx+i]`. -/
def lagrangeSpec (xs ys : List ℚ) (idx : ℤ) (x : ℚ) (order : ℕ) : ℚ :=
  ((List.range (order + 1)).map fun (i : ℕ) =>
    ((((List.range (order + 1)).map fun (j : ℕ) =>
      if j = i then 1 else x - nth xs (idx + (j : ℤ))).prod) /
     (((List.range (order + 1)).map fun (j : ℕ) =>
      if j = i then 1 else nth xs (idx + (i : ℤ)) - nth xs (idx + (j : ℤ))).prod)) *
    nth ys (idx + (i : ℤ))).sum

/-- Spec closed form for LinLin (§4.2): `y0 + (x-x0)/(x1-x0) * (y1-y0)`. -/
def linLinSpec (x0 x1 y0 y1 x : ℚ) : ℚ :=
  y0 + (x - x0) / (x1 - x0) * (y1 - y0)

/-- Spec closed form for LinLog (§4.2): `y0 + ln(x/x0)/ln(x1/x0) * (y1-y0)`. -/
def linLogSpec (lg : ℚ → ℚ) (x0 x1 y0 y1 x : ℚ) : ℚ :=
  y0 + lg (x / x0) / lg (x1 / x0) * (y1 - y0)

/-- Spec closed form for LogLin (§4.2): `y0 * exp((x-x0)/(x1-x0) * ln(y1/y0))`. -/
def logLinSpec (lg ex : ℚ → ℚ) (x0 x1 y0 y1 x : ℚ) : ℚ :=
  y0 * ex ((x - x0) / (x1 - x0) * lg (y1 / y0))

/-- Spec closed form for LogLog (§4.2):
`y0 * exp(ln(x/x0)/ln(x1/x0) * ln(y1/y0))`. -/
def logLogSpec (lg ex : ℚ → ℚ) (x0 x1 y0 y1 x : ℚ) : ℚ :=
  y0 * ex (lg (x / x0) / lg (x1 / x0) * lg (y1 / y0))

/-- C3: in the observed source the Lagrangian evaluator declares its stencil
index before its query value, but the `quadratic` and `cubic` branches of
`interpolate` pass the query first: every quadratic or cubic evaluation uses
the truncated query value `truncQ x` as the stencil start actually handed to
the evaluator, and the computed (shifted) stencil index, cast to a real
value, as the point evaluated at. -/
theorem lagrangian_arguments_swapped (lg ex : ℚ → ℚ) (xs ys : List ℚ) (x : ℚ) :
    interpolate lg ex xs ys x Interpolation.quadratic =
      Except.ok (interpolate_lagrangian xs ys (truncQ x)
        ((shiftQuad xs.length (lower_bound_index xs x) : ℤ) : ℚ) 2) ∧
    interpolate lg ex xs ys x Interpolation.cubic =
      Except.ok (interpolate_lagrangian xs ys (truncQ x)
        ((shiftCubic xs.length (lower_bound_index xs x) : ℤ) : ℚ) 3) :=
  ⟨rfl, rfl⟩

/-- C4: for a table long enough for the law (`n ≥ 3` quadratic, `n ≥ 4` cubic)
and any bracket index in `[0, n-2]`, the dispatcher's shift logic yields a
stencil start in `[0, n-1-order]` (order 2 resp. 3). -/
theorem stencil_shift_containment (n : ℕ) (idx : ℤ)
    (h0 : 0 ≤ idx) (h2 : idx ≤ (n : ℤ) - 2) :
    (3 ≤ n → 0 ≤ shiftQuad n idx ∧ shiftQuad n idx ≤ (n : ℤ) - 1 - 2) ∧
    (4 ≤ n → 0 ≤ shiftCubic n idx ∧ shiftCubic n idx ≤ (n : ℤ) - 1 - 3) := by
  constructor <;> intro hn <;>
    simp only [shiftQuad, shiftCubic] <;> split_ifs <;> omega

/-- Witness for `stencil_shift_containment` at `n = 4`, `idx = 2`. -/
theorem stencil_shift_containment_witness :
    ((0 : ℤ) ≤ 2 ∧ (2 : ℤ) ≤ ((4 : ℕ) : ℤ) - 2) ∧
    (0 ≤ shiftQuad 4 2 ∧ shiftQuad 4 2 ≤ ((4 : ℕ) : ℤ) - 1 - 2) ∧
    (0 ≤ shiftCubic 4 2 ∧ shiftCubic 4 2 ≤ ((4 : ℕ) : ℤ) - 1 - 3) :=
  ⟨⟨by norm_num, by norm_num⟩,
   (stencil_shift_containment 4 2 (by norm_num) (by norm_num)).1 (by norm_num),
   (stencil_shift_containment 4 2 (by norm_num) (by norm_num)).2 (by norm_num)⟩

/-- C7: a law outside the six defined enumeration values makes `interpolate`
fail with the unsupported-interpolation error and return no numeric result;
every defined law yields a numeric result, never that error. -/
theorem unsupported_law_error (lg ex : ℚ → ℚ) (xs ys : List ℚ) (x : ℚ)
    (law : Interpolation) :
    ((∀ v : ℤ, law ≠ Interpolation.invalid v) →
      ∃ y : ℚ, interpolate lg ex xs ys x law = Except.ok y) ∧
    (∀ v : ℤ, law = Interpolation.invalid v →
      interpolate lg ex xs ys x law = Except.error "Unsupported interpolation") := by
  constructor
  · intro h
    cases law
    case invalid v => exact absurd rfl (h v)
    all_goals exact ⟨_, rfl⟩
  · intro v hv
    subst hv
    rfl

/-- Witness for `unsupported_law_error`: a defined law succeeds, an
out-of-enumeration value fails with the unsupported-interpolation error. -/
theorem unsupported_law_error_witness :
    (∃ y : ℚ, interpolate id id [1, 2] [1, 2] 1 Interpolation.lin_lin =
      Except.ok y) ∧
    interpolate id id [1, 2] [1, 2] 1 (Interpolation.invalid 7) =
      Except.error "Unsupported interpolation" :=
  ⟨(unsupported_law_error id id [1, 2] [1, 2] 1 Interpolation.lin_lin).1
      (fun v h => Interpolation.noConfusion h),
   (unsupported_law_error id id [1, 2] [1, 2] 1 (Interpolation.invalid 7)).2 7 rfl⟩

/-- C8: each pointwise kernel computes exactly the spec's closed form on the
bracket endpoints and the query, for endpoint values satisfying the spec's
positivity preconditions and `x0 ≠ x1` (`lg`, `ex` abstract `log`, `exp`). -/
theorem kernels_match_spec_formulas (lg ex : ℚ → ℚ) (x0 x1 y0 y1 x : ℚ)
    (hne : x0 ≠ x1) (hx0 : 0 < x0) (hx1 : 0 < x1) (hx : 0 < x)
    (hy0 : 0 < y0) (hy1 : 0 < y1) :
    interpolate_lin_lin x0 x1 y0 y1 x = linLinSpec x0 x1 y0 y1 x ∧
    interpolate_lin_log lg x0 x1 y0 y1 x = linLogSpec lg x0 x1 y0 y1 x ∧
    interpolate_log_lin lg ex x0 x1 y0 y1 x = logLinSpec lg ex x0 x1 y0 y1 x ∧
    interpolate_log_log lg ex x0 x1 y0 y1 x = logLogSpec lg ex x0 x1 y0 y1 x :=
  ⟨rfl, rfl, rfl, rfl⟩

/-- Witness for `kernels_match_spec_formulas` at
`x0 = 1, x1 = 2, y0 = 1, y1 = 2, x = 3/2` with `lg = ex = id`. -/
theorem kernels_match_spec_formulas_witness :
    ((1 : ℚ) ≠ 2 ∧ (0 : ℚ) < 1 ∧ (0 : ℚ) < 2 ∧ (0 : ℚ) < 3 / 2) ∧
    interpolate_log_log id id 1 2 1 2 (3 / 2) = logLogSpec id id 1 2 1 2 (3 / 2) :=
  ⟨⟨by norm_num, by norm_num, by norm_num, by norm_num⟩,
   (kernels_match_spec_formulas id id 1 2 1 2 (3 / 2) (by norm_num) (by norm_num)
     (by norm_num) (by norm_num) (by norm_num) (by norm_num)).2.2.2⟩

/-- C10: on a 4-point table the cubic shift logic lands on stencil start 0:
for the bracket `lower_bound_index` returns on any query, and for every raw
bracket index in `[0, 2]`. -/
theorem cubic_minimal_table_stencil_zero (xs : List ℚ) (x : ℚ) (idx : ℤ)
    (hlen : xs.length = 4) (h0 : 0 ≤ idx) (h2 : idx ≤ 2) :
    shiftCubic 4 ((lower_bound_index xs x : ℤ)) = 0 ∧ shiftCubic 4 idx = 0 := by
  have hub : lower_bound_index xs x ≤ 2 := by
    have h := Nat.min_le_left (xs.length - 2) (xs.countP (fun v => decide (v ≤ x)) - 1)
    have hd : lower_bound_index xs x = min (xs.length - 2)
        (xs.countP (fun v => decide (v ≤ x)) - 1) := rfl
    omega
  constructor <;> simp only [shiftCubic] <;> split_ifs <;> omega

/-- Witness for `cubic_minimal_table_stencil_zero` on `xs = [1,2,3,4]`,
`x = 5/2`, `idx = 2`. -/
theorem cubic_minimal_table_stencil_zero_witness :
    ([(1 : ℚ), 2, 3, 4].length = 4 ∧ (0 : ℤ) ≤ 2 ∧ (2 : ℤ) ≤ 2) ∧
    (shiftCubic 4 ((lower_bound_index [(1 : ℚ), 2, 3, 4] (5 / 2) : ℤ)) = 0 ∧
      shiftCubic 4 2 = 0) :=
  ⟨⟨rfl, by norm_num, by norm_num⟩,
   cubic_minimal_table_stencil_zero [(1 : ℚ), 2, 3, 4] (5 / 2) 2 rfl
     (by norm_num) (by norm_num)⟩

/-- C1 evaluation: on the table `xs = [1,2,3,4]`, `ys = [1,4,9,16]` (the
values of the degree-2 polynomial `f(t) = t^2`), the quadratic law at
`x = 1/2` returns 7 instead of `f(1/2) = 1/4`: polynomial exactness fails on
the code as observed. -/
theorem quadratic_polynomial_exactness_fails :
    interpolate id id [1, 2, 3, 4] [1, 4, 9, 16] (1 / 2)
      Interpolation.quadratic = Except.ok 7 ∧
    ((1 : ℚ) / 2) ^ 2 ≠ 7 := by
  constructor
  · norm_num [interpolate, interpolate_lagrangian, lower_bound_index, shiftQuad,
      truncQ, nth, List.range_succ, List.countP_cons]
  · norm_num

/-- C2 evaluation: with `xs = [0,1,2]`, `ys = [1,0,0]`, stencil start 0,
query 3, order 2, the source evaluator returns -2 while the spec's
full-window basis product gives 1: the inner loop of the source stops at
`j < order` and drops the factor `j = order`. -/
theorem lagrangian_truncated_product :
    interpolate_lagrangian [0, 1, 2] [1, 0, 0] 0 3 2 = -2 ∧
    lagrangeSpec [0, 1, 2] [1, 0, 0] 0 3 2 = 1 := by
  constructor
  · norm_num [interpolate_lagrangian, nth, List.range_succ]
  · norm_num [lagrangeSpec, nth, List.range_succ]

/-- C5 evaluation: on `xs = [0, 1/2, 1, 3/2, 2]`, `ys = [1,2,3,4,5]`, the
quadratic law queried exactly at the interior grid point `x = xs[1] = 1/2`
returns 6, not `ys[1] = 2`: endpoint exactness fails on the code as
observed. -/
theorem endpoint_exactness_fails :
    interpolate id id [0, 1 / 2, 1, 3 / 2, 2] [1, 2, 3, 4, 5] (1 / 2)
      Interpolation.quadratic = Except.ok 6 ∧
    nth [0, 1 / 2, 1, 3 / 2, 2] 1 = 1 / 2 ∧
    nth [1, 2, 3, 4, 5] 1 = 2 ∧ (6 : ℚ) ≠ 2 := by
  refine ⟨?_, ?_, ?_, ?_⟩
  · norm_num [interpolate, interpolate_lagrangian, lower_bound_index, shiftQuad,
      truncQ, nth, List.range_succ, List.countP_cons]
  · norm_num [nth]
  · norm_num [nth]
  · norm_num

/-- C6 evaluation: for `xs = [1,2,3,4]`, `ys = [1,4,9,16]`, quadratic,
`x = 7/2` (the last interval): the shift logic does move the stencil start to
1, but because of the swapped call the evaluator actually receives stencil
start `truncQ (7/2) = 3` and query point 1, and a 3-point window starting at
index 3 runs past the last table index 3 — the evaluation reads out of
bounds instead of returning 12.25. -/
theorem last_interval_quadratic_out_of_bounds :
    lower_bound_index [1, 2, 3, 4] (7 / 2) = 2 ∧
    shiftQuad 4 2 = 1 ∧
    truncQ (7 / 2) = 3 ∧
    interpolate id id [1, 2, 3, 4] [1, 4, 9, 16] (7 / 2)
      Interpolation.quadratic =
      Except.ok (interpolate_lagrangian [1, 2, 3, 4] [1, 4, 9, 16] 3 1 2) ∧
    ¬ (3 + 2 ≤ (4 : ℤ) - 1) := by
  refine ⟨?_, ?_, ?_, ?_, ?_⟩
  · norm_num [lower_bound_index, List.countP_cons]
  · norm_num [shiftQuad]
  · norm_num [truncQ]
  · norm_num [interpolate, interpolate_lagrangian, lower_bound_index, shiftQuad,
      truncQ, nth, List.range_succ, List.countP_cons]
  · norm_num

end OpenMC
